import Mathlib

/-!
Shallow embedding of the MathMon game-progression engine.

Sources embedded here:
* the game-state reducer and its helpers (`getDefaultGameState`, `loadGameState`,
  `addCaughtPokemon`, `updateStreak`, `recordAnswer`, `completeWorksheet`,
  `setTrainerName`, `updateAchievements`, `calculateAccuracy`,
  `shouldContinueStreak`, `claimDailyReward`, `getCurrentStreakDay`);
* the static achievement catalog (`ACHIEVEMENTS`);
* the daily-reward schedule and lookup (`DAILY_REWARDS`, `getDailyReward`);
* the sync queue's retry bookkeeping (`incrementRetryCount`).

Modelling conventions:
* JavaScript numbers that are always non-negative integers in the source
  (XP, levels, counters, star ratings) are `Nat`; `Math.floor(x / 500)` on
  such values is `Nat` division.
* Calendar dates (the `YYYY-MM-DD` strings produced by
  `toISOString().split('T')[0]` and compared at midnight granularity) are
  epoch day numbers of type `Int`; the empty string used for
  "never claimed" is `Option.none`.
* The system clock (`new Date()`), read by `updateAchievements` for unlock
  timestamps and by `claimDailyReward` for today's date, is passed
  explicitly as a parameter (`now : Nat`, `today : Int`).
* `localStorage` access in `loadGameState` is abstracted as an
  `Option GameState` argument (`none` covers both a missing key and a
  parse failure, which the source handles identically by falling back to
  the default state).
* The JavaScript `%` operator on possibly negative integers is `Int.tmod`
  (both truncate toward zero); array indexing that can go out of bounds
  returns an `Option`.
-/

namespace MathMon

/-- Pokemon record as stored in `caughtPokemon` (src/types). -/
structure Pokemon where
  id : Nat
  name : String
  sprite : String
  officialArtwork : String
  types : List String
  caughtAt : Option Nat := none
  caughtWithProblem : Option String := none
deriving DecidableEq

/-- Completed-worksheet record (src/types). -/
structure WorksheetResult where
  worksheetId : String
  completedAt : Nat
  correctAnswers : Nat
  totalProblems : Nat
  stars : Nat
  timeSeconds : Nat
deriving DecidableEq

/-- Static achievement catalog entry: `Omit<Achievement, 'current' | 'unlockedAt'>`. -/
structure AchievementDef where
  id : String
  name : String
  description : String
  icon : String
  requirement : Nat
deriving DecidableEq

/-- Achievement progress entry carried inside the game state (src/types). -/
structure Achievement where
  id : String
  name : String
  description : String
  icon : String
  requirement : Nat
  current : Nat
  unlockedAt : Option Nat := none
deriving DecidableEq

/-- Root profile aggregate (src/types `GameState`). -/
structure GameState where
  trainerName : String
  caughtPokemon : List Pokemon
  highestStreak : Nat
  totalCorrectAnswers : Nat
  totalProblemsAttempted : Nat
  worksheetsCompleted : List WorksheetResult
  achievements : List Achievement
  currentStreak : Nat
  lastPlayedDate : Int
  xp : Nat
  level : Nat
  dailyLoginStreak : Nat
  lastRewardClaimedDate : Option Int
  totalDaysPlayed : Nat
deriving DecidableEq

/-- Static achievement catalog (src/data/achievements.ts `ACHIEVEMENTS`). -/
def ACHIEVEMENTS : List AchievementDef := [
  { id := "first_catch", name := "First Catch!",
    description := "Catch your very first Pokemon", icon := "🎉", requirement := 1 },
  { id := "catch_10", name := "Pokemon Collector",
    description := "Catch 10 Pokemon", icon := "🏆", requirement := 10 },
  { id := "catch_50", name := "Pokemon Trainer",
    description := "Catch 50 Pokemon", icon := "⭐", requirement := 50 },
  { id := "catch_100", name := "Pokemon Master",
    description := "Catch 100 Pokemon", icon := "👑", requirement := 100 },
  { id := "streak_5", name := "Getting Started",
    description := "Get a 5 answer streak", icon := "🔥", requirement := 5 },
  { id := "streak_10", name := "On Fire!",
    description := "Get a 10 answer streak", icon := "💪", requirement := 10 },
  { id := "streak_25", name := "Unstoppable!",
    description := "Get a 25 answer streak", icon := "🚀", requirement := 25 },
  { id := "streak_50", name := "Math Legend",
    description := "Get a 50 answer streak", icon := "🌟", requirement := 50 },
  { id := "worksheet_1", name := "Scholar",
    description := "Complete your first worksheet", icon := "📝", requirement := 1 },
  { id := "worksheet_5", name := "Studious",
    description := "Complete 5 worksheets", icon := "📚", requirement := 5 },
  { id := "worksheet_10", name := "Academic",
    description := "Complete 10 worksheets", icon := "🎓", requirement := 10 },
  { id := "perfect_worksheet", name := "Perfectionist",
    description := "Get 3 stars on a worksheet", icon := "💯", requirement := 1 },
  { id := "level_5", name := "Rising Star",
    description := "Reach level 5", icon := "🌙", requirement := 5 },
  { id := "level_10", name := "Superstar",
    description := "Reach level 10", icon := "✨", requirement := 10 },
  { id := "correct_100", name := "Math Whiz",
    description := "Answer 100 problems correctly", icon := "🧮", requirement := 100 },
  { id := "correct_500", name := "Math Genius",
    description := "Answer 500 problems correctly", icon := "🧠", requirement := 500 }
]

/-- Spread `{ ...a, current: 0 }` turning a catalog entry into a fresh progress record. -/
def AchievementDef.withZero (a : AchievementDef) : Achievement :=
  { id := a.id, name := a.name, description := a.description, icon := a.icon,
    requirement := a.requirement, current := 0, unlockedAt := none }

/-- Default game state for new players (`getDefaultGameState`); `today` is the
current date read from the clock for `lastPlayedDate`. -/
def getDefaultGameState (today : Int) : GameState :=
  { trainerName := ""
    caughtPokemon := []
    highestStreak := 0
    totalCorrectAnswers := 0
    totalProblemsAttempted := 0
    worksheetsCompleted := []
    achievements := ACHIEVEMENTS.map AchievementDef.withZero
    currentStreak := 0
    lastPlayedDate := today
    xp := 0
    level := 1
    dailyLoginStreak := 0
    lastRewardClaimedDate := none
    totalDaysPlayed := 0 }

/-- Merge step of `loadGameState`: achievements added to the catalog after the
save was written are appended with `current = 0`. -/
def mergeAchievements (parsed : GameState) : GameState :=
  let existingAchievementIds := parsed.achievements.map Achievement.id
  let newAchievements :=
    (ACHIEVEMENTS.filter (fun a => !(existingAchievementIds.contains a.id))).map
      AchievementDef.withZero
  { parsed with achievements := parsed.achievements ++ newAchievements }

/-- Load game state (`loadGameState`): `saved` abstracts the
`localStorage.getItem` + `JSON.parse` result (`none` covers a missing key and
the caught parse error, both of which fall back to the default state). -/
def loadGameState (saved : Option GameState) (today : Int) : GameState :=
  match saved with
  | some parsed => mergeAchievements parsed
  | none => getDefaultGameState today

/-- Switch body of `updateAchievements`: the recomputed `current` counter for
one achievement, from the profile snapshot. The default branch keeps the
achievement's existing counter. -/
def computeCurrent (state : GameState) (achievement : Achievement) : Nat :=
  match achievement.id with
  | "first_catch" => if state.caughtPokemon.length > 0 then 1 else 0
  | "catch_10" | "catch_50" | "catch_100" => state.caughtPokemon.length
  | "streak_5" | "streak_10" | "streak_25" | "streak_50" => state.highestStreak
  | "worksheet_1" | "worksheet_5" | "worksheet_10" => state.worksheetsCompleted.length
  | "perfect_worksheet" =>
    (state.worksheetsCompleted.filter (fun w => w.stars == 3)).length
  | "level_5" | "level_10" => state.level
  | "correct_100" | "correct_500" => state.totalCorrectAnswers
  | _ => achievement.current

/-- Per-element body of the `map` in `updateAchievements`: recompute `current`,
then stamp `unlockedAt` with the clock (`now`) the first time
`current ≥ requirement` holds, leaving an existing timestamp untouched. -/
def evalAchievement (now : Nat) (state : GameState) (achievement : Achievement) :
    Achievement :=
  let current := computeCurrent state achievement
  { achievement with
    current := current
    unlockedAt :=
      if current ≥ achievement.requirement ∧ achievement.unlockedAt = none then
        some now
      else achievement.unlockedAt }

/-- Achievement evaluator (`updateAchievements`): recompute every achievement's
progress from the profile snapshot. -/
def updateAchievements (now : Nat) (state : GameState) : List Achievement :=
  state.achievements.map (evalAchievement now state)

/-- Reducer `addCaughtPokemon`: append the catch, add 50 XP, level up if the
computed level exceeds the stored one, then re-run achievement evaluation. -/
def addCaughtPokemon (now : Nat) (state : GameState) (pokemon : Pokemon)
    (problemText : Option String) : GameState :=
  let caughtPokemon : Pokemon :=
    { pokemon with caughtAt := some now, caughtWithProblem := problemText }
  let newState :=
    { state with
      caughtPokemon := state.caughtPokemon ++ [caughtPokemon]
      xp := state.xp + 50 }
  let newLevel := newState.xp / 500 + 1
  let leveled := if newLevel > state.level then { newState with level := newLevel }
    else newState
  { leveled with achievements := updateAchievements now leveled }

/-- Reducer `updateStreak`: store the new streak, raise `highestStreak` to its
maximum, then re-run achievement evaluation. -/
def updateStreak (now : Nat) (state : GameState) (newStreak : Nat) : GameState :=
  let newState :=
    { state with
      currentStreak := newStreak
      highestStreak := max state.highestStreak newStreak }
  { newState with achievements := updateAchievements now newState }

/-- Reducer `recordAnswer`: bump the attempt counter, and on a correct answer
the correct counter and 10 XP, leveling up if needed. It does not call
`updateAchievements`. -/
def recordAnswer (state : GameState) (correct : Bool) : GameState :=
  let newState :=
    { state with
      totalProblemsAttempted := state.totalProblemsAttempted + 1
      totalCorrectAnswers :=
        if correct then state.totalCorrectAnswers + 1 else state.totalCorrectAnswers
      xp := if correct then state.xp + 10 else state.xp }
  let newLevel := newState.xp / 500 + 1
  if newLevel > state.level then { newState with level := newLevel } else newState

/-- Reducer `completeWorksheet`: append the result, add 50 XP per star, level
up if needed, then re-run achievement evaluation. -/
def completeWorksheet (now : Nat) (state : GameState) (result : WorksheetResult) :
    GameState :=
  let newState :=
    { state with
      worksheetsCompleted := state.worksheetsCompleted ++ [result]
      xp := state.xp + result.stars * 50 }
  let newLevel := newState.xp / 500 + 1
  let leveled := if newLevel > state.level then { newState with level := newLevel }
    else newState
  { leveled with achievements := updateAchievements now leveled }

/-- Reducer `setTrainerName`. -/
def setTrainerName (state : GameState) (name : String) : GameState :=
  { state with trainerName := name }

/-- Accuracy percentage (`calculateAccuracy`): 0 when nothing was attempted,
otherwise `Math.round((correct / attempted) * 100)` (round half toward
positive infinity, matching Mathlib `round` on nonnegative rationals). -/
def calculateAccuracy (state : GameState) : Int :=
  if state.totalProblemsAttempted = 0 then 0
  else
    round ((state.totalCorrectAnswers : ℚ) / (state.totalProblemsAttempted : ℚ) * 100)

/-- Streak-continuation test (`shouldContinueStreak`): false on an empty
last-claimed date, otherwise true exactly when the midnight-granularity
difference `today - lastClaimed` is exactly one day. -/
def shouldContinueStreak (today : Int) (lastClaimedDate : Option Int) : Bool :=
  match lastClaimedDate with
  | none => false
  | some lastClaimed => today - lastClaimed == 1

/-- Reducer `claimDailyReward`: continue or reset the login streak, stamp
today's date, count the day, add the XP bonus with a monotonic level update,
then re-run achievement evaluation. -/
def claimDailyReward (now : Nat) (today : Int) (state : GameState) (xpBonus : Nat) :
    GameState :=
  let streakContinues := shouldContinueStreak today state.lastRewardClaimedDate
  let newStreak := if streakContinues then state.dailyLoginStreak + 1 else 1
  let newXp := state.xp + xpBonus
  let newLevel := newXp / 500 + 1
  let newState :=
    { state with
      dailyLoginStreak := newStreak
      lastRewardClaimedDate := some today
      totalDaysPlayed := state.totalDaysPlayed + 1
      xp := newXp
      level := max state.level newLevel }
  { newState with achievements := updateAchievements now newState }

/-- Streak day shown and used for reward selection (`getCurrentStreakDay`):
1 when there is no last claim or the streak will not continue, otherwise
`dailyLoginStreak % 7 + 1`. -/
def getCurrentStreakDay (today : Int) (state : GameState) : Nat :=
  match state.lastRewardClaimedDate with
  | none => 1
  | some _ =>
    if shouldContinueStreak today state.lastRewardClaimedDate then
      state.dailyLoginStreak % 7 + 1
    else 1

/-- Daily-reward schedule entry (src/types `DailyReward`). -/
structure DailyReward where
  day : Nat
  xpBonus : Nat
  pokemonBonus : Bool
  specialReward : Option String := none
  icon : String
  description : String
deriving DecidableEq

/-- Static 7-day reward cycle (src/data/dailyRewards.ts `DAILY_REWARDS`). -/
def DAILY_REWARDS : List DailyReward := [
  { day := 1, xpBonus := 50, pokemonBonus := false, icon := "🌟",
    description := "Welcome back bonus!" },
  { day := 2, xpBonus := 75, pokemonBonus := false, icon := "✨",
    description := "Keep it up!" },
  { day := 3, xpBonus := 100, pokemonBonus := true, icon := "🎁",
    description := "Free Pokemon encounter!" },
  { day := 4, xpBonus := 100, pokemonBonus := false, specialReward := some ("double_xp"),
    icon := "⚡", description := "Double XP today!" },
  { day := 5, xpBonus := 125, pokemonBonus := true, specialReward := some ("rare_pokemon"),
    icon := "💎", description := "Rare Pokemon chance!" },
  { day := 6, xpBonus := 150, pokemonBonus := false, icon := "🔥",
    description := "Almost there!" },
  { day := 7, xpBonus := 200, pokemonBonus := true,
    specialReward := some ("legendary_chance"), icon := "👑",
    description := "Weekly bonus + Legendary chance!" }
]

/-- JavaScript array indexing `arr[i]` with an integer index: `undefined`
(here `none`) for a negative or out-of-range index. -/
def jsIndex {α : Type} (l : List α) (i : Int) : Option α :=
  if i < 0 then none else l.get? i.toNat

/-- Reward lookup (`getDailyReward`): index the 7-entry schedule at
`(streakDay - 1) % 7`, where `%` is the JavaScript remainder (`Int.tmod`). -/
def getDailyReward (streakDay : Int) : Option DailyReward :=
  let dayIndex := Int.tmod (streakDay - 1) 7
  jsIndex DAILY_REWARDS dayIndex

/-- Profile-update sync payload (src/services/syncQueue.ts). -/
structure ProfileUpdatePayload where
  trainer_name : Option String := none
  xp : Option Nat := none
  level : Option Nat := none
  highest_streak : Option Nat := none
  current_streak : Option Nat := none
  total_correct_answers : Option Nat := none
  total_problems_attempted : Option Nat := none
  daily_login_streak : Option Nat := none
  last_reward_claimed_date : Option (Option Int) := none
  total_days_played : Option Nat := none
  last_played_date : Option Int := none
deriving DecidableEq

/-- Tagged sync payload union (src/services/syncQueue.ts `SyncPayload`,
with the operation kind of `SyncOperationType` as the tag). -/
inductive SyncPayload where
  | profile_update (p : ProfileUpdatePayload)
  | pokemon_catch (pokemon : Pokemon) (problemText : Option String)
  | achievement_update (achievementId : String) (progress : Nat)
  | worksheet_save (worksheetId : String) (result : WorksheetResult)
deriving DecidableEq

/-- Queued sync operation (src/services/syncQueue.ts `SyncOperation`). -/
structure SyncOperation where
  id : String
  payload : SyncPayload
  userId : String
  timestamp : Nat
  retryCount : Nat
deriving DecidableEq

/-- Retry bound (src/services/syncQueue.ts `MAX_RETRY_COUNT`). -/
def MAX_RETRY_COUNT : Nat := 5

/-- In-place `operation.retryCount++` on the first queue entry `find` returns:
the queue with the first operation of the given id bumped by one. -/
def bumpFirst (queue : List SyncOperation) (id : String) : List SyncOperation :=
  match queue with
  | [] => []
  | op :: rest =>
    if op.id == id then { op with retryCount := op.retryCount + 1 } :: rest
    else op :: bumpFirst rest id

/-- Failure bookkeeping (`incrementRetryCount`): bump the retry counter of the
first matching operation; once the bumped counter exceeds `MAX_RETRY_COUNT`
the operation is dropped from the saved queue and `false` (the warning-level
"do not retry" signal) is returned, otherwise the bumped queue is saved and
`true` is returned. A missing id returns `false` with the queue unchanged. -/
def incrementRetryCount (queue : List SyncOperation) (id : String) :
    Bool × List SyncOperation :=
  match queue.find? (fun op => op.id == id) with
  | none => (false, queue)
  | some operation =>
    if operation.retryCount + 1 > MAX_RETRY_COUNT then
      (false, queue.filter (fun op => !(op.id == id)))
    else
      (true, bumpFirst queue id)

/-- Iterated consecutive failures of one operation: `recordFailures q id n` is
the queue after `n` calls of `incrementRetryCount` for that id (the failure
path of `processQueue` in src/services/cloudSync.ts). -/
def recordFailures (queue : List SyncOperation) (id : String) : Nat → List SyncOperation
  | 0 => queue
  | n + 1 => (incrementRetryCount (recordFailures queue id n) id).2

/-- Reducer event alphabet (§4.4): each constructor carries the clock readings
its handler takes from `new Date()`. -/
inductive Event where
  | pokemonCaught (pokemon : Pokemon) (problemText : Option String) (now : Nat)
  | streakUpdated (newStreak : Nat) (now : Nat)
  | answerRecorded (correct : Bool)
  | worksheetCompleted (result : WorksheetResult) (now : Nat)
  | trainerNamed (name : String)
  | dailyRewardClaimed (today : Int) (xpBonus : Nat) (now : Nat)
deriving DecidableEq

/-- Dispatch one reducer event to its handler. -/
def applyEvent (state : GameState) : Event → GameState
  | Event.pokemonCaught pokemon problemText now =>
    addCaughtPokemon now state pokemon problemText
  | Event.streakUpdated newStreak now => updateStreak now state newStreak
  | Event.answerRecorded correct => recordAnswer state correct
  | Event.worksheetCompleted result now => completeWorksheet now state result
  | Event.trainerNamed name => setTrainerName state name
  | Event.dailyRewardClaimed today xpBonus now => claimDailyReward now today state xpBonus

/-- Fold a sequence of reducer events over a state. -/
def applyEvents (state : GameState) : List Event → GameState
  | [] => state
  | e :: es => applyEvents (applyEvent state e) es

@[simp] theorem evalAchievement_id (now : Nat) (s : GameState) (a : Achievement) :
    (evalAchievement now s a).id = a.id := rfl

@[simp] theorem evalAchievement_requirement (now : Nat) (s : GameState) (a : Achievement) :
    (evalAchievement now s a).requirement = a.requirement := rfl

@[simp] theorem evalAchievement_current (now : Nat) (s : GameState) (a : Achievement) :
    (evalAchievement now s a).current = computeCurrent s a := rfl

/-- C6: daily-claim transition. Claiming sets `lastRewardClaimedDate` to today and
increments `totalDaysPlayed` by exactly 1; `dailyLoginStreak` becomes the old value
plus 1 exactly when the previous claim was exactly one calendar day ago, and
becomes 1 for an empty date or any other gap (including negative gaps). -/
theorem claim_C6 (state : GameState) (today : Int) (now xpBonus : Nat) :
    (claimDailyReward now today state xpBonus).lastRewardClaimedDate = some today ∧
    (claimDailyReward now today state xpBonus).totalDaysPlayed = state.totalDaysPlayed + 1 ∧
    (state.lastRewardClaimedDate = none →
      (claimDailyReward now today state xpBonus).dailyLoginStreak = 1) ∧
    (∀ d, state.lastRewardClaimedDate = some d →
      (today - d = 1 →
        (claimDailyReward now today state xpBonus).dailyLoginStreak
          = state.dailyLoginStreak + 1) ∧
      (today - d ≠ 1 →
        (claimDailyReward now today state xpBonus).dailyLoginStreak = 1)) := by
  refine ⟨rfl, rfl, ?_, ?_⟩
  · intro h
    simp [claimDailyReward, shouldContinueStreak, h]
  · intro d hd
    constructor
    · intro h1
      simp [claimDailyReward, shouldContinueStreak, hd, h1]
    · intro h1
      simp [claimDailyReward, shouldContinueStreak, hd, h1]

theorem getCurrentStreakDay_le (state : GameState) (today : Int) :
    1 ≤ getCurrentStreakDay today state ∧ getCurrentStreakDay today state ≤ 7 := by
  unfold getCurrentStreakDay
  split
  · omega
  · split <;> omega

/-- C7 (amended): the streak day used for reward-slot selection equals
`dailyLoginStreak % 7 + 1` exactly when the streak continues (last claim exactly
yesterday); for every other profile it is 1. It always lies in 1..7 and the
formula cycles with period 7, so day 8 reuses day 1 of the schedule. -/
theorem claim_C7_amended (state : GameState) (today : Int) :
    (shouldContinueStreak today state.lastRewardClaimedDate = true →
      getCurrentStreakDay today state = state.dailyLoginStreak % 7 + 1) ∧
    (shouldContinueStreak today state.lastRewardClaimedDate = false →
      getCurrentStreakDay today state = 1) ∧
    1 ≤ getCurrentStreakDay today state ∧ getCurrentStreakDay today state ≤ 7 ∧
    (state.dailyLoginStreak + 7) % 7 + 1 = state.dailyLoginStreak % 7 + 1 := by
  refine ⟨?_, ?_, (getCurrentStreakDay_le state today).1,
    (getCurrentStreakDay_le state today).2, by omega⟩
  · intro h
    unfold getCurrentStreakDay
    split
    · rename_i hd
      rw [hd] at h; simp [shouldContinueStreak] at h
    · simp [h]
  · intro h
    unfold getCurrentStreakDay
    split
    · rfl
    · simp [h]

theorem getDailyReward_isSome (streakDay : Int) (h : 1 ≤ streakDay) :
    (getDailyReward streakDay).isSome = true := by
  unfold getDailyReward jsIndex
  have h0 : (0 : Int) ≤ Int.tmod (streakDay - 1) 7 := Int.tmod_nonneg _ (by omega)
  have h7 : Int.tmod (streakDay - 1) 7 < 7 := Int.tmod_lt_of_pos _ (by omega)
  rw [if_neg (by omega)]
  have ht : (Int.tmod (streakDay - 1) 7).toNat < 7 := by omega
  interval_cases hi : (Int.tmod (streakDay - 1) 7).toNat <;> rfl

/-- C10: reward lookup stays in bounds. `getCurrentStreakDay` always returns a
value in 1..7; for every `streakDay ≥ 1` the index `(streakDay - 1) % 7` used by
`getDailyReward` lies in 0..6 of the 7-entry schedule, so composing the two never
indexes out of bounds; `streakDay = 0` would index -1 (`none`), but is never
produced. -/
theorem claim_C10 (state : GameState) (today : Int) (streakDay : Int)
    (h : 1 ≤ streakDay) :
    1 ≤ getCurrentStreakDay today state ∧ getCurrentStreakDay today state ≤ 7 ∧
    0 ≤ Int.tmod (streakDay - 1) 7 ∧ Int.tmod (streakDay - 1) 7 < 7 ∧
    (getDailyReward streakDay).isSome = true ∧
    (getDailyReward (getCurrentStreakDay today state : Nat)).isSome = true ∧
    getDailyReward 0 = none := by
  refine ⟨(getCurrentStreakDay_le state today).1, (getCurrentStreakDay_le state today).2,
    Int.tmod_nonneg _ (by omega), Int.tmod_lt_of_pos _ (by omega),
    getDailyReward_isSome streakDay h, ?_, by decide⟩
  have h1 := (getCurrentStreakDay_le state today).1
  exact getDailyReward_isSome _ (by exact_mod_cast h1)

theorem claim_C10_witness :
    1 ≤ (3 : Int) ∧
    (1 ≤ getCurrentStreakDay 0 (getDefaultGameState 0) ∧
      getCurrentStreakDay 0 (getDefaultGameState 0) ≤ 7 ∧
      0 ≤ Int.tmod ((3 : Int) - 1) 7 ∧ Int.tmod ((3 : Int) - 1) 7 < 7 ∧
      (getDailyReward 3).isSome = true ∧
      (getDailyReward (getCurrentStreakDay 0 (getDefaultGameState 0) : Nat)).isSome = true ∧
      getDailyReward 0 = none) :=
  ⟨by decide, claim_C10 (getDefaultGameState 0) 0 3 (by decide)⟩

/-- C9: accuracy is total. With no attempted problems `calculateAccuracy` returns
0 rather than dividing by zero; otherwise it returns
`round(100 * totalCorrectAnswers / totalProblemsAttempted)`. -/
theorem claim_C9 (state : GameState) :
    (state.totalProblemsAttempted = 0 → calculateAccuracy state = 0) ∧
    (0 < state.totalProblemsAttempted →
      calculateAccuracy state
        = round (100 * (state.totalCorrectAnswers : ℚ) /
            (state.totalProblemsAttempted : ℚ))) := by
  constructor
  · intro h
    simp [calculateAccuracy, h]
  · intro h
    unfold calculateAccuracy
    rw [if_neg (by omega)]
    congr 1
    ring

theorem claim_C9_witness :
    0 < ({ getDefaultGameState 0 with
            totalProblemsAttempted := 4, totalCorrectAnswers := 3 } :
          GameState).totalProblemsAttempted ∧
    calculateAccuracy { getDefaultGameState 0 with
        totalProblemsAttempted := 4, totalCorrectAnswers := 3 }
      = round (100 * (({ getDefaultGameState 0 with
            totalProblemsAttempted := 4, totalCorrectAnswers := 3 } :
          GameState).totalCorrectAnswers : ℚ) /
          (({ getDefaultGameState 0 with
            totalProblemsAttempted := 4, totalCorrectAnswers := 3 } :
          GameState).totalProblemsAttempted : ℚ)) :=
  ⟨by decide,
    (claim_C9 { getDefaultGameState 0 with
        totalProblemsAttempted := 4, totalCorrectAnswers := 3 }).2 (by decide)⟩

theorem find?_first (i : String) (pre post : List SyncOperation) (op : SyncOperation)
    (hop : op.id = i) (hpre : ∀ o ∈ pre, o.id ≠ i) :
    (pre ++ op :: post).find? (fun o => o.id == i) = some op := by
  induction pre with
  | nil => simp [hop]
  | cons head tail ih =>
    rw [List.cons_append, List.find?_cons_of_neg _ (by simp [hpre head (by simp)])]
    exact ih (fun o ho => hpre o (by simp [ho]))

theorem bumpFirst_eq (i : String) (pre post : List SyncOperation) (op : SyncOperation)
    (hop : op.id = i) (hpre : ∀ o ∈ pre, o.id ≠ i) :
    bumpFirst (pre ++ op :: post) i
      = pre ++ { op with retryCount := op.retryCount + 1 } :: post := by
  induction pre with
  | nil => simp [bumpFirst, hop]
  | cons head tail ih =>
    have hh : (head.id == i) = false := by simp [hpre head (by simp)]
    rw [List.cons_append, bumpFirst, hh]
    simp only [Bool.false_eq_true, if_false, List.cons_append, List.cons.injEq, true_and]
    exact ih (fun o ho => hpre o (by simp [ho]))

theorem filter_removes (i : String) (pre post : List SyncOperation) (op : SyncOperation)
    (hop : op.id = i) (hpre : ∀ o ∈ pre, o.id ≠ i) (hpost : ∀ o ∈ post, o.id ≠ i) :
    (pre ++ op :: post).filter (fun o => !(o.id == i)) = pre ++ post := by
  rw [List.filter_append, List.filter_cons]
  rw [if_neg (by simp [hop])]
  congr 1
  · rw [List.filter_eq_self]
    intro o ho; simp [hpre o ho]
  · rw [List.filter_eq_self]
    intro o ho; simp [hpost o ho]

theorem incrementRetryCount_eq (i : String) (pre post : List SyncOperation)
    (op : SyncOperation) (hop : op.id = i)
    (hpre : ∀ o ∈ pre, o.id ≠ i) (hpost : ∀ o ∈ post, o.id ≠ i) :
    incrementRetryCount (pre ++ op :: post) i
      = if op.retryCount + 1 > MAX_RETRY_COUNT then (false, pre ++ post)
        else (true, pre ++ { op with retryCount := op.retryCount + 1 } :: post) := by
  unfold incrementRetryCount
  rw [find?_first i pre post op hop hpre]
  dsimp only
  split
  · rw [filter_removes i pre post op hop hpre hpost]
  · rw [bumpFirst_eq i pre post op hop hpre]

theorem incrementRetryCount_absent (i : String) (queue : List SyncOperation)
    (h : ∀ o ∈ queue, o.id ≠ i) :
    incrementRetryCount queue i = (false, queue) := by
  unfold incrementRetryCount
  rw [List.find?_eq_none.mpr (by intro o ho; simp [h o ho])]

theorem recordFailures_le (i : String) (pre post : List SyncOperation)
    (op : SyncOperation) (hop : op.id = i)
    (hpre : ∀ o ∈ pre, o.id ≠ i) (hpost : ∀ o ∈ post, o.id ≠ i)
    (h0 : op.retryCount = 0) (k : Nat) (hk : k ≤ 5) :
    recordFailures (pre ++ op :: post) i k
      = pre ++ { op with retryCount := k } :: post := by
  induction k with
  | zero =>
    show pre ++ op :: post = _
    obtain ⟨a, b, c, d, e⟩ := op
    simp only at h0
    subst h0
    rfl
  | succ n ih =>
    rw [recordFailures, ih (by omega)]
    rw [incrementRetryCount_eq i pre post { op with retryCount := n } hop hpre hpost]
    rw [if_neg (by simp only [MAX_RETRY_COUNT]; omega)]

/-- C5: queue retry bound. Each recorded failure increments the retry counter of
the queued operation; after its 5th recorded failure it is still present with
`retryCount = 5`; the 6th recorded failure removes it from the queue and returns
the warning-level signal `false`; from then on it is never retried again. -/
theorem claim_C5 (pre post : List SyncOperation) (op : SyncOperation)
    (hpre : ∀ o ∈ pre, o.id ≠ op.id) (hpost : ∀ o ∈ post, o.id ≠ op.id)
    (h0 : op.retryCount = 0) :
    (∀ k, k ≤ 5 →
      recordFailures (pre ++ op :: post) op.id k
        = pre ++ { op with retryCount := k } :: post) ∧
    ((incrementRetryCount (recordFailures (pre ++ op :: post) op.id 5) op.id).1
        = false) ∧
    (∀ m, 6 ≤ m → recordFailures (pre ++ op :: post) op.id m = pre ++ post) := by
  have hle := recordFailures_le op.id pre post op rfl hpre hpost h0
  have habsent : ∀ o ∈ pre ++ post, o.id ≠ op.id := by
    intro o ho
    rcases List.mem_append.mp ho with h1 | h2
    · exact hpre o h1
    · exact hpost o h2
  refine ⟨fun k hk => hle k hk, ?_, ?_⟩
  · rw [hle 5 (by omega), incrementRetryCount_eq op.id pre post { op with retryCount := 5 } rfl hpre hpost,
      if_pos (by show 5 + 1 > MAX_RETRY_COUNT; decide)]
  · intro m hm
    induction m with
    | zero => omega
    | succ n ih =>
      rcases Nat.lt_or_ge n 6 with h | h
      · have hn : n = 5 := by omega
        subst hn
        rw [recordFailures, hle 5 (by omega),
          incrementRetryCount_eq op.id pre post { op with retryCount := 5 } rfl hpre hpost,
          if_pos (by show 5 + 1 > MAX_RETRY_COUNT; decide)]
      · rw [recordFailures, ih h, incrementRetryCount_absent op.id (pre ++ post) habsent]

/-- Sample queued operation used by witnesses. -/
def sampleOperation : SyncOperation :=
  { id := "op-1", payload := SyncPayload.achievement_update ("first_catch") 1,
    userId := "u", timestamp := 0, retryCount := 0 }

theorem claim_C5_witness :
    recordFailures [sampleOperation] "op-1" 5
      = [{ sampleOperation with retryCount := 5 }] ∧
    recordFailures [sampleOperation] "op-1" 6 = [] :=
  ⟨(claim_C5 [] [] sampleOperation (by decide) (by decide) rfl).1 5 (by decide),
   (claim_C5 [] [] sampleOperation (by decide) (by decide) rfl).2.2 6 (by decide)⟩

/-- Sample profile that claimed yesterday with a 2-day login streak. -/
def sampleClaimState : GameState :=
  { getDefaultGameState 0 with lastRewardClaimedDate := some 0, dailyLoginStreak := 2 }

theorem claim_C6_witness :
    ((1 : Int) - 0 = 1 ∧
      (claimDailyReward 0 1 sampleClaimState 50).dailyLoginStreak = 3) ∧
    (claimDailyReward 0 1 sampleClaimState 50).totalDaysPlayed = 1 :=
  ⟨⟨by decide, ((claim_C6 sampleClaimState 1 0 50).2.2.2 0 rfl).1 (by decide)⟩,
   (claim_C6 sampleClaimState 1 0 50).2.1⟩

/-- Sample profile that claimed yesterday with an 8-day login streak. -/
def sampleStreakState : GameState :=
  { getDefaultGameState 0 with lastRewardClaimedDate := some 0, dailyLoginStreak := 8 }

theorem claim_C7_amended_witness :
    shouldContinueStreak 1 sampleStreakState.lastRewardClaimedDate = true ∧
    getCurrentStreakDay 1 sampleStreakState = 2 :=
  ⟨by decide, (claim_C7_amended sampleStreakState 1).1 (by decide)⟩

theorem computeCurrent_achievements (s : GameState) (l : List Achievement) (a : Achievement) :
    computeCurrent { s with achievements := l } a = computeCurrent s a := rfl

theorem computeCurrent_eval_self (now : Nat) (s : GameState) (b : Achievement) :
    computeCurrent s (evalAchievement now s b) = computeCurrent s b := by
  unfold computeCurrent
  simp only [evalAchievement_id]
  split <;> try rfl
  simp only [evalAchievement_current]
  unfold computeCurrent
  split <;> simp_all

@[simp] theorem evalAchievement_unlockedAt (now : Nat) (s : GameState) (a : Achievement) :
    (evalAchievement now s a).unlockedAt
      = if computeCurrent s a ≥ a.requirement ∧ a.unlockedAt = none then some now
        else a.unlockedAt := rfl

theorem computeCurrent_set (t s : GameState)
    (hc : ∀ x, computeCurrent t x = computeCurrent s x) (b : Achievement)
    (c : Nat) (u : Option Nat) (hcb : c = computeCurrent s b) :
    computeCurrent t
      { id := b.id, name := b.name, description := b.description, icon := b.icon,
        requirement := b.requirement, current := c, unlockedAt := u }
      = computeCurrent s b := by
  rw [hc]
  subst hcb
  unfold computeCurrent
  dsimp only
  split <;> try rfl
  split <;> simp_all

attribute [ext] Achievement

theorem evalAchievement_idem (now : Nat) (t s : GameState)
    (hc : ∀ x, computeCurrent t x = computeCurrent s x) (b : Achievement) :
    evalAchievement now t (evalAchievement now s b) = evalAchievement now s b := by
  have hset : computeCurrent t (evalAchievement now s b) = computeCurrent s b :=
    (hc _).trans (computeCurrent_eval_self now s b)
  ext1
  · rfl
  · rfl
  · rfl
  · rfl
  · rfl
  · simp only [evalAchievement_current, hset]
  · simp only [evalAchievement_unlockedAt, evalAchievement_requirement, hset]
    by_cases hreq : computeCurrent s b ≥ b.requirement
    · by_cases hun : b.unlockedAt = none
      · simp [hreq, hun]
      · simp [hreq, hun]
    · simp [hreq]

/-- C2: achievement evaluation is idempotent. With the evaluation clock held
fixed, evaluating the achievement set of a profile whose achievements were just
evaluated yields the same achievement set: same counters, same unlock state, and
no change to an already-set unlock timestamp. -/
theorem claim_C2 (now : Nat) (state : GameState) :
    updateAchievements now { state with achievements := updateAchievements now state }
      = updateAchievements now state := by
  unfold updateAchievements
  simp only [List.map_map]
  refine List.map_congr_left ?_
  intro a _
  exact evalAchievement_idem now _ state (fun x => computeCurrent_achievements state _ x) a

/-- C1 counterexample: from the default profile, applying `recordAnswer` with
`correct = true` raises `totalCorrectAnswers` to 1 while the `correct_100` and
`correct_500` counters stay at 0, so this handler does not re-run achievement
evaluation as the claim states. -/
theorem claim_C1_counterexample :
    (recordAnswer (getDefaultGameState 0) true).totalCorrectAnswers = 1 ∧
    ((recordAnswer (getDefaultGameState 0) true).achievements.find?
        (fun a => a.id == "correct_100")).map Achievement.current = some 0 ∧
    ((recordAnswer (getDefaultGameState 0) true).achievements.find?
        (fun a => a.id == "correct_500")).map Achievement.current = some 0 := by
  decide

theorem updateAchievements_ids (now : Nat) (s : GameState) :
    (updateAchievements now s).map Achievement.id
      = s.achievements.map Achievement.id := by
  unfold updateAchievements
  rw [List.map_map]
  exact List.map_congr_left (fun a _ => rfl)

theorem applyEvent_ids (s : GameState) (e : Event) :
    (applyEvent s e).achievements.map Achievement.id
      = s.achievements.map Achievement.id := by
  cases e with
  | pokemonCaught p pt now =>
    simp only [applyEvent, addCaughtPokemon, updateAchievements_ids]
    split <;> rfl
  | streakUpdated k now =>
    simp only [applyEvent, updateStreak, updateAchievements_ids]
  | answerRecorded c =>
    simp only [applyEvent, recordAnswer]
    split <;> split <;> rfl
  | worksheetCompleted r now =>
    simp only [applyEvent, completeWorksheet, updateAchievements_ids]
    split <;> rfl
  | trainerNamed n => rfl
  | dailyRewardClaimed today bonus now =>
    simp only [applyEvent, claimDailyReward, updateAchievements_ids]

/-- C8: achievement-set completeness. The default profile and every profile
returned by `loadGameState` contain an entry for every achievement id in the
static catalog (ids missing from stored data are appended with `current = 0`),
and every reducer event preserves the list of achievement ids. -/
theorem claim_C8 (d : Int) (saved : Option GameState) (state : GameState) (e : Event) :
    (∀ a ∈ ACHIEVEMENTS, ∃ b ∈ (getDefaultGameState d).achievements, b.id = a.id) ∧
    (∀ a ∈ ACHIEVEMENTS, ∃ b ∈ (loadGameState saved d).achievements, b.id = a.id) ∧
    (∀ parsed, saved = some parsed → ∀ a ∈ ACHIEVEMENTS,
      a.id ∉ parsed.achievements.map Achievement.id →
        AchievementDef.withZero a ∈ (loadGameState saved d).achievements) ∧
    (applyEvent state e).achievements.map Achievement.id
      = state.achievements.map Achievement.id := by
  refine ⟨?_, ?_, ?_, applyEvent_ids state e⟩
  · intro a ha
    exact ⟨AchievementDef.withZero a, List.mem_map_of_mem _ ha, rfl⟩
  · intro a ha
    cases saved with
    | none => exact ⟨AchievementDef.withZero a, List.mem_map_of_mem _ ha, rfl⟩
    | some parsed =>
      simp only [loadGameState, mergeAchievements]
      by_cases hc : a.id ∈ parsed.achievements.map Achievement.id
      · rcases List.mem_map.mp hc with ⟨b, hb, hbid⟩
        exact ⟨b, List.mem_append_left _ hb, hbid⟩
      · refine ⟨AchievementDef.withZero a, List.mem_append_right _ ?_, rfl⟩
        apply List.mem_map_of_mem
        rw [List.mem_filter]
        refine ⟨ha, ?_⟩
        simp [hc]
  · intro parsed hs a ha hnot
    subst hs
    simp only [loadGameState, mergeAchievements]
    refine List.mem_append_right _ ?_
    apply List.mem_map_of_mem
    rw [List.mem_filter]
    exact ⟨ha, by simp [hnot]⟩

/-- Sample stored profile whose achievements list is empty. -/
def sampleParsedState : GameState := { getDefaultGameState 0 with achievements := [] }

/-- Sample catalog entry. -/
def sampleDef : AchievementDef :=
  { id := "first_catch", name := "First Catch!",
    description := "Catch your very first Pokemon", icon := "🎉", requirement := 1 }

theorem claim_C8_witness :
    AchievementDef.withZero sampleDef
      ∈ (loadGameState (some sampleParsedState) 0).achievements :=
  (claim_C8 0 (some sampleParsedState) (getDefaultGameState 0)
      (Event.trainerNamed ("x"))).2.2.1 sampleParsedState rfl sampleDef
    (by decide) (by decide)

theorem recordAnswer_true_xp (s : GameState) : (recordAnswer s true).xp = s.xp + 10 := by
  unfold recordAnswer
  dsimp only
  split <;> split <;> simp_all

theorem applyEvents_replicate_xp (N : Nat) :
    ∀ s : GameState,
      (applyEvents s (List.replicate N (Event.answerRecorded true))).xp
        = s.xp + 10 * N := by
  induction N with
  | zero => intro s; simp [applyEvents]
  | succ n ih =>
    intro s
    rw [List.replicate_succ]
    show (applyEvents (applyEvent s (Event.answerRecorded true))
        (List.replicate n (Event.answerRecorded true))).xp = _
    rw [ih]
    show (recordAnswer s true).xp + 10 * n = s.xp + 10 * (n + 1)
    rw [recordAnswer_true_xp]
    ring

theorem addCaughtPokemon_xp (now : Nat) (s : GameState) (p : Pokemon)
    (pt : Option String) : (addCaughtPokemon now s p pt).xp = s.xp + 50 := by
  unfold addCaughtPokemon
  dsimp only
  split <;> rfl

theorem completeWorksheet_xp (now : Nat) (s : GameState) (r : WorksheetResult) :
    (completeWorksheet now s r).xp = s.xp + r.stars * 50 := by
  unfold completeWorksheet
  dsimp only
  split <;> rfl

theorem recordAnswer_level (s : GameState) (c : Bool) :
    (recordAnswer s c).level = max s.level ((recordAnswer s c).xp / 500 + 1) := by
  unfold recordAnswer
  dsimp only
  split <;> split <;> first | omega | (dsimp only; omega)

theorem addCaughtPokemon_level (now : Nat) (s : GameState) (p : Pokemon)
    (pt : Option String) :
    (addCaughtPokemon now s p pt).level
      = max s.level ((addCaughtPokemon now s p pt).xp / 500 + 1) := by
  unfold addCaughtPokemon
  dsimp only
  split <;> first | omega | (dsimp only; omega)

theorem completeWorksheet_level (now : Nat) (s : GameState) (r : WorksheetResult) :
    (completeWorksheet now s r).level
      = max s.level ((completeWorksheet now s r).xp / 500 + 1) := by
  unfold completeWorksheet
  dsimp only
  split <;> first | omega | (dsimp only; omega)

/-- C3: XP conservation. N correct answers from the default profile yield
`xp = 10 * N`; each catch adds exactly 50 XP; a worksheet with S stars adds
exactly `50 * S` XP; every XP-changing handler sets
`level = max(prior level, floor(xp / 500) + 1)`; and a profile at 450 XP on
level 1 reaches level 2 exactly when a catch brings it to 500. -/
theorem claim_C3 (d : Int) (N : Nat) (state : GameState) (pokemon : Pokemon)
    (pt : Option String) (result : WorksheetResult) (correct : Bool)
    (now : Nat) (today : Int) (xpBonus : Nat) :
    (applyEvents (getDefaultGameState d)
        (List.replicate N (Event.answerRecorded true))).xp = 10 * N ∧
    (addCaughtPokemon now state pokemon pt).xp = state.xp + 50 ∧
    (completeWorksheet now state result).xp = state.xp + result.stars * 50 ∧
    (recordAnswer state correct).level
      = max state.level ((recordAnswer state correct).xp / 500 + 1) ∧
    (addCaughtPokemon now state pokemon pt).level
      = max state.level ((addCaughtPokemon now state pokemon pt).xp / 500 + 1) ∧
    (completeWorksheet now state result).level
      = max state.level ((completeWorksheet now state result).xp / 500 + 1) ∧
    (claimDailyReward now today state xpBonus).level
      = max state.level ((claimDailyReward now today state xpBonus).xp / 500 + 1) ∧
    (state.xp = 450 → state.level = 1 →
      (addCaughtPokemon now state pokemon pt).xp = 500 ∧
      (addCaughtPokemon now state pokemon pt).level = 2) := by
  refine ⟨?_, addCaughtPokemon_xp now state pokemon pt,
    completeWorksheet_xp now state result, recordAnswer_level state correct,
    addCaughtPokemon_level now state pokemon pt,
    completeWorksheet_level now state result, rfl, ?_⟩
  · rw [applyEvents_replicate_xp]
    show 0 + 10 * N = 10 * N
    omega
  · intro h450 hlev
    have hx : (addCaughtPokemon now state pokemon pt).xp = 500 := by
      rw [addCaughtPokemon_xp, h450]
    refine ⟨hx, ?_⟩
    rw [addCaughtPokemon_level, hx, hlev]
    decide

/-- Sample profile sitting at 450 XP on level 1. -/
def sampleBoundaryState : GameState := { getDefaultGameState 0 with xp := 450 }

/-- Sample catchable Pokemon. -/
def samplePokemon : Pokemon :=
  { id := 1, name := "Bulbasaur", sprite := "sprite.png",
    officialArtwork := "art.png", types := ["grass"] }

/-- Sample worksheet result. -/
def sampleResult : WorksheetResult :=
  { worksheetId := "k_addition", completedAt := 0, correctAnswers := 8,
    totalProblems := 10, stars := 2, timeSeconds := 120 }

theorem claim_C3_witness :
    (addCaughtPokemon 0 sampleBoundaryState samplePokemon none).xp = 500 ∧
    (addCaughtPokemon 0 sampleBoundaryState samplePokemon none).level = 2 :=
  (claim_C3 0 1 sampleBoundaryState samplePokemon none sampleResult true 0 0
      0).2.2.2.2.2.2.2 rfl rfl

/-- Pointwise order on the profile quantities that achievement counters track. -/
def fieldsLE (s t : GameState) : Prop :=
  s.caughtPokemon.length ≤ t.caughtPokemon.length ∧
  s.highestStreak ≤ t.highestStreak ∧
  s.worksheetsCompleted.length ≤ t.worksheetsCompleted.length ∧
  (s.worksheetsCompleted.filter (fun w => w.stars == 3)).length
    ≤ (t.worksheetsCompleted.filter (fun w => w.stars == 3)).length ∧
  s.level ≤ t.level ∧
  s.totalCorrectAnswers ≤ t.totalCorrectAnswers

theorem computeCurrent_mono (s t : GameState) (hf : fieldsLE s t) (a : Achievement) :
    computeCurrent s a ≤ computeCurrent t a := by
  obtain ⟨h1, h2, h3, h4, h5, h6⟩ := hf
  unfold computeCurrent
  split <;> first | omega | (split_ifs <;> omega)

theorem addCaughtPokemon_spec (now : Nat) (s : GameState) (p : Pokemon)
    (pt : Option String) :
    ∃ mid : GameState, fieldsLE s mid ∧
      (addCaughtPokemon now s p pt).achievements
        = s.achievements.map (evalAchievement now mid) ∧
      (∀ x, computeCurrent (addCaughtPokemon now s p pt) x = computeCurrent mid x) ∧
      s.level ≤ (addCaughtPokemon now s p pt).level ∧
      s.highestStreak ≤ (addCaughtPokemon now s p pt).highestStreak := by
  unfold addCaughtPokemon
  dsimp only
  split
  · refine ⟨_, ?_, rfl, fun x => rfl, ?_, le_refl _⟩
    · exact ⟨by simp, le_refl _, le_refl _, le_refl _,
        by show s.level ≤ (s.xp + 50) / 500 + 1; omega, le_refl _⟩
    · show s.level ≤ (s.xp + 50) / 500 + 1
      omega
  · refine ⟨_, ?_, rfl, fun x => rfl, le_refl _, le_refl _⟩
    exact ⟨by simp, le_refl _, le_refl _, le_refl _, le_refl _, le_refl _⟩

theorem updateStreak_spec (now : Nat) (s : GameState) (k : Nat) :
    ∃ mid : GameState, fieldsLE s mid ∧
      (updateStreak now s k).achievements
        = s.achievements.map (evalAchievement now mid) ∧
      (∀ x, computeCurrent (updateStreak now s k) x = computeCurrent mid x) ∧
      s.level ≤ (updateStreak now s k).level ∧
      s.highestStreak ≤ (updateStreak now s k).highestStreak := by
  unfold updateStreak
  dsimp only
  refine ⟨_, ?_, rfl, fun x => rfl, le_refl _, ?_⟩
  · refine ⟨le_refl _, ?_, le_refl _, le_refl _, le_refl _, le_refl _⟩
    show s.highestStreak ≤ max s.highestStreak k
    omega
  · show s.highestStreak ≤ max s.highestStreak k
    omega

theorem completeWorksheet_spec (now : Nat) (s : GameState) (r : WorksheetResult) :
    ∃ mid : GameState, fieldsLE s mid ∧
      (completeWorksheet now s r).achievements
        = s.achievements.map (evalAchievement now mid) ∧
      (∀ x, computeCurrent (completeWorksheet now s r) x = computeCurrent mid x) ∧
      s.level ≤ (completeWorksheet now s r).level ∧
      s.highestStreak ≤ (completeWorksheet now s r).highestStreak := by
  unfold completeWorksheet
  dsimp only
  split
  · refine ⟨_, ?_, rfl, fun x => rfl, ?_, le_refl _⟩
    · refine ⟨le_refl _, le_refl _, ?_, ?_, ?_, le_refl _⟩ <;> dsimp only
      · simp
      · simp [List.filter_append]
      · show s.level ≤ (s.xp + r.stars * 50) / 500 + 1
        omega
    · show s.level ≤ (s.xp + r.stars * 50) / 500 + 1
      omega
  · refine ⟨_, ?_, rfl, fun x => rfl, le_refl _, le_refl _⟩
    refine ⟨le_refl _, le_refl _, ?_, ?_, le_refl _, le_refl _⟩ <;> dsimp only
    · simp
    · simp [List.filter_append]

theorem claimDailyReward_spec (now : Nat) (today : Int) (s : GameState)
    (xpBonus : Nat) :
    ∃ mid : GameState, fieldsLE s mid ∧
      (claimDailyReward now today s xpBonus).achievements
        = s.achievements.map (evalAchievement now mid) ∧
      (∀ x, computeCurrent (claimDailyReward now today s xpBonus) x
        = computeCurrent mid x) ∧
      s.level ≤ (claimDailyReward now today s xpBonus).level ∧
      s.highestStreak ≤ (claimDailyReward now today s xpBonus).highestStreak := by
  unfold claimDailyReward
  dsimp only
  refine ⟨_, ?_, rfl, fun x => rfl, ?_, le_refl _⟩
  · refine ⟨le_refl _, le_refl _, le_refl _, le_refl _, ?_, le_refl _⟩
    show s.level ≤ max s.level ((s.xp + xpBonus) / 500 + 1)
    omega
  · show s.level ≤ max s.level ((s.xp + xpBonus) / 500 + 1)
    omega

theorem recordAnswer_achievements (s : GameState) (c : Bool) :
    (recordAnswer s c).achievements = s.achievements := by
  unfold recordAnswer
  dsimp only
  split <;> split <;> rfl

theorem recordAnswer_spec (s : GameState) (c : Bool) :
    fieldsLE s (recordAnswer s c) ∧
    s.level ≤ (recordAnswer s c).level ∧
    s.highestStreak ≤ (recordAnswer s c).highestStreak := by
  unfold recordAnswer
  dsimp only
  split <;> split <;>
    · refine ⟨⟨?_, ?_, ?_, ?_, ?_, ?_⟩, ?_, ?_⟩ <;> dsimp only <;> omega

theorem setTrainerName_spec (s : GameState) (n : String) :
    fieldsLE s (setTrainerName s n) ∧
    (setTrainerName s n).achievements = s.achievements ∧
    s.level ≤ (setTrainerName s n).level ∧
    s.highestStreak ≤ (setTrainerName s n).highestStreak :=
  ⟨⟨le_refl _, le_refl _, le_refl _, le_refl _, le_refl _, le_refl _⟩, rfl,
    le_refl _, le_refl _⟩

/-- Invariant of reachable profiles: no achievement counter exceeds the value
the evaluator would recompute for it. -/
def achInv (s : GameState) : Prop :=
  ∀ a ∈ s.achievements, a.current ≤ computeCurrent s a

theorem achInv_eval (now : Nat) (s result mid : GameState)
    (hach : result.achievements = s.achievements.map (evalAchievement now mid))
    (hcc : ∀ x, computeCurrent result x = computeCurrent mid x) :
    achInv result := by
  intro a ha
  rw [hach] at ha
  rcases List.mem_map.mp ha with ⟨b, hb, rfl⟩
  rw [evalAchievement_current, hcc]
  exact le_of_eq (computeCurrent_eval_self now mid b).symm

theorem achInv_nonEval (s result : GameState) (hf : fieldsLE s result)
    (hach : result.achievements = s.achievements) (hinv : achInv s) :
    achInv result := by
  intro a ha
  rw [hach] at ha
  exact le_trans (hinv a ha) (computeCurrent_mono s result hf a)

theorem achInv_applyEvent (s : GameState) (e : Event) (hinv : achInv s) :
    achInv (applyEvent s e) := by
  cases e with
  | pokemonCaught p pt now =>
    obtain ⟨mid, _, hach, hcc, _, _⟩ := addCaughtPokemon_spec now s p pt
    exact achInv_eval now s _ mid hach hcc
  | streakUpdated k now =>
    obtain ⟨mid, _, hach, hcc, _, _⟩ := updateStreak_spec now s k
    exact achInv_eval now s _ mid hach hcc
  | answerRecorded c =>
    exact achInv_nonEval s _ (recordAnswer_spec s c).1
      (recordAnswer_achievements s c) hinv
  | worksheetCompleted r now =>
    obtain ⟨mid, _, hach, hcc, _, _⟩ := completeWorksheet_spec now s r
    exact achInv_eval now s _ mid hach hcc
  | trainerNamed n =>
    exact achInv_nonEval s _ (setTrainerName_spec s n).1
      (setTrainerName_spec s n).2.1 hinv
  | dailyRewardClaimed today xpBonus now =>
    obtain ⟨mid, _, hach, hcc, _, _⟩ := claimDailyReward_spec now today s xpBonus
    exact achInv_eval now s _ mid hach hcc

theorem achInv_default (d : Int) : achInv (getDefaultGameState d) := by
  intro a ha
  rcases List.mem_map.mp
    (show a ∈ ACHIEVEMENTS.map AchievementDef.withZero from ha) with ⟨b, _, rfl⟩
  exact Nat.zero_le _

theorem achInv_applyEvents (s : GameState) (hinv : achInv s) (es : List Event) :
    achInv (applyEvents s es) := by
  induction es generalizing s with
  | nil => exact hinv
  | cons e es ih => exact ih _ (achInv_applyEvent s e hinv)

theorem applyEvent_achievements_length (s : GameState) (e : Event) :
    (applyEvent s e).achievements.length = s.achievements.length := by
  have h := congrArg List.length (applyEvent_ids s e)
  simpa using h

theorem step_current_mono (s : GameState) (e : Event) (hinv : achInv s)
    (i : Nat) (h1 : i < s.achievements.length)
    (h2 : i < (applyEvent s e).achievements.length) :
    (s.achievements[i]).current ≤ ((applyEvent s e).achievements[i]).current := by
  cases e with
  | pokemonCaught p pt now =>
    obtain ⟨mid, hf, hach, _, _, _⟩ := addCaughtPokemon_spec now s p pt
    simp only [applyEvent] at h2 ⊢
    rw [List.getElem_of_eq hach h2, List.getElem_map, evalAchievement_current]
    exact le_trans (hinv _ (List.getElem_mem h1)) (computeCurrent_mono s mid hf _)
  | streakUpdated k now =>
    obtain ⟨mid, hf, hach, _, _, _⟩ := updateStreak_spec now s k
    simp only [applyEvent] at h2 ⊢
    rw [List.getElem_of_eq hach h2, List.getElem_map, evalAchievement_current]
    exact le_trans (hinv _ (List.getElem_mem h1)) (computeCurrent_mono s mid hf _)
  | answerRecorded c =>
    simp only [applyEvent] at h2 ⊢
    rw [List.getElem_of_eq (recordAnswer_achievements s c) h2]
  | worksheetCompleted r now =>
    obtain ⟨mid, hf, hach, _, _, _⟩ := completeWorksheet_spec now s r
    simp only [applyEvent] at h2 ⊢
    rw [List.getElem_of_eq hach h2, List.getElem_map, evalAchievement_current]
    exact le_trans (hinv _ (List.getElem_mem h1)) (computeCurrent_mono s mid hf _)
  | trainerNamed n =>
    simp only [applyEvent] at h2 ⊢
    rw [List.getElem_of_eq (setTrainerName_spec s n).2.1 h2]
  | dailyRewardClaimed today xpBonus now =>
    obtain ⟨mid, hf, hach, _, _, _⟩ := claimDailyReward_spec now today s xpBonus
    simp only [applyEvent] at h2 ⊢
    rw [List.getElem_of_eq hach h2, List.getElem_map, evalAchievement_current]
    exact le_trans (hinv _ (List.getElem_mem h1)) (computeCurrent_mono s mid hf _)

theorem step_level_mono (s : GameState) (e : Event) :
    s.level ≤ (applyEvent s e).level ∧
    s.highestStreak ≤ (applyEvent s e).highestStreak := by
  cases e with
  | pokemonCaught p pt now =>
    obtain ⟨mid, _, _, _, hl, hs⟩ := addCaughtPokemon_spec now s p pt
    exact ⟨hl, hs⟩
  | streakUpdated k now =>
    obtain ⟨mid, _, _, _, hl, hs⟩ := updateStreak_spec now s k
    exact ⟨hl, hs⟩
  | answerRecorded c =>
    exact ⟨(recordAnswer_spec s c).2.1, (recordAnswer_spec s c).2.2⟩
  | worksheetCompleted r now =>
    obtain ⟨mid, _, _, _, hl, hs⟩ := completeWorksheet_spec now s r
    exact ⟨hl, hs⟩
  | trainerNamed n =>
    exact ⟨(setTrainerName_spec s n).2.2.1, (setTrainerName_spec s n).2.2.2⟩
  | dailyRewardClaimed today xpBonus now =>
    obtain ⟨mid, _, _, _, hl, hs⟩ := claimDailyReward_spec now today s xpBonus
    exact ⟨hl, hs⟩

/-- Counter recomputed for a `totalCorrectAnswers`-tracking achievement equals
that field of the profile snapshot. -/
theorem computeCurrent_correct_id (t : GameState) (a : Achievement)
    (hid : a.id = "correct_100" ∨ a.id = "correct_500") :
    computeCurrent t a = t.totalCorrectAnswers := by
  rcases hid with h | h <;>
  · unfold computeCurrent
    rw [h]
    rfl

/-- Catch-up fact behind the amended C1: after an evaluating handler whose
achievement list is an evaluation of the prior list, every achievement tracking
`totalCorrectAnswers` holds exactly the resulting profile's counter. -/
theorem catchUp (now : Nat) (s result mid : GameState)
    (hach : result.achievements = s.achievements.map (evalAchievement now mid))
    (hcc : ∀ x, computeCurrent result x = computeCurrent mid x)
    (a : Achievement) (ha : a ∈ result.achievements)
    (hid : a.id = "correct_100" ∨ a.id = "correct_500") :
    a.current = result.totalCorrectAnswers := by
  rw [hach] at ha
  rcases List.mem_map.mp ha with ⟨b, hb, rfl⟩
  have hidb : b.id = "correct_100" ∨ b.id = "correct_500" := by
    simpa using hid
  rw [evalAchievement_current, computeCurrent_correct_id mid b hidb]
  have h1 := hcc b
  rw [computeCurrent_correct_id result b hidb,
    computeCurrent_correct_id mid b hidb] at h1
  exact h1.symm

/-- C1 (amended): `recordAnswer` does not re-run achievement evaluation and
leaves the achievement set unchanged; the evaluating handlers (catch, streak
update, worksheet completion, daily claim) do re-run it, so after any of them
every achievement tracking `totalCorrectAnswers` (`correct_100`, `correct_500`)
has its counter equal to the profile's `totalCorrectAnswers` — in particular a
streak update right after `recordAnswer` catches the counters up to the new
`totalCorrectAnswers`. -/
theorem claim_C1_amended (state : GameState) (correct : Bool) (now newStreak : Nat)
    (pokemon : Pokemon) (pt : Option String) (result : WorksheetResult)
    (today : Int) (xpBonus : Nat) :
    (recordAnswer state correct).achievements = state.achievements ∧
    (∀ a ∈ (addCaughtPokemon now state pokemon pt).achievements,
      a.id = "correct_100" ∨ a.id = "correct_500" →
        a.current = (addCaughtPokemon now state pokemon pt).totalCorrectAnswers) ∧
    (∀ a ∈ (updateStreak now state newStreak).achievements,
      a.id = "correct_100" ∨ a.id = "correct_500" →
        a.current = (updateStreak now state newStreak).totalCorrectAnswers) ∧
    (∀ a ∈ (completeWorksheet now state result).achievements,
      a.id = "correct_100" ∨ a.id = "correct_500" →
        a.current = (completeWorksheet now state result).totalCorrectAnswers) ∧
    (∀ a ∈ (claimDailyReward now today state xpBonus).achievements,
      a.id = "correct_100" ∨ a.id = "correct_500" →
        a.current = (claimDailyReward now today state xpBonus).totalCorrectAnswers) ∧
    (∀ a ∈ (updateStreak now (recordAnswer state correct) newStreak).achievements,
      a.id = "correct_100" ∨ a.id = "correct_500" →
        a.current = (recordAnswer state correct).totalCorrectAnswers) := by
  refine ⟨recordAnswer_achievements state correct, ?_, ?_, ?_, ?_, ?_⟩
  · intro a ha hid
    obtain ⟨mid, _, hach, hcc, _, _⟩ := addCaughtPokemon_spec now state pokemon pt
    exact catchUp now state _ mid hach hcc a ha hid
  · intro a ha hid
    obtain ⟨mid, _, hach, hcc, _, _⟩ := updateStreak_spec now state newStreak
    exact catchUp now state _ mid hach hcc a ha hid
  · intro a ha hid
    obtain ⟨mid, _, hach, hcc, _, _⟩ := completeWorksheet_spec now state result
    exact catchUp now state _ mid hach hcc a ha hid
  · intro a ha hid
    obtain ⟨mid, _, hach, hcc, _, _⟩ := claimDailyReward_spec now today state xpBonus
    exact catchUp now state _ mid hach hcc a ha hid
  · intro a ha hid
    obtain ⟨mid, _, hach, hcc, _, _⟩ :=
      updateStreak_spec now (recordAnswer state correct) newStreak
    exact catchUp now (recordAnswer state correct) _ mid hach hcc a ha hid

theorem claim_C1_amended_witness :
    (((updateStreak 0 (recordAnswer (getDefaultGameState 0) true) 1).achievements.get
        ⟨14, by decide⟩).id = "correct_100" ∨
      ((updateStreak 0 (recordAnswer (getDefaultGameState 0) true) 1).achievements.get
        ⟨14, by decide⟩).id = "correct_500") ∧
    ((updateStreak 0 (recordAnswer (getDefaultGameState 0) true) 1).achievements.get
        ⟨14, by decide⟩).current = 1 :=
  ⟨by decide,
    ((claim_C1_amended (getDefaultGameState 0) true 0 1 samplePokemon none
          sampleResult 0 0).2.2.2.2.2 _
        (by decide) (by decide)).trans (by decide)⟩

/-- C4: monotonicity. Along every sequence of reducer events applied from the
default profile, `level`, `highestStreak` and the `current` counter of each
achievement never decrease from one state to the next. -/
theorem claim_C4 (d : Int) (es : List Event) (e : Event) :
    (applyEvents (getDefaultGameState d) es).level
        ≤ (applyEvent (applyEvents (getDefaultGameState d) es) e).level ∧
    (applyEvents (getDefaultGameState d) es).highestStreak
        ≤ (applyEvent (applyEvents (getDefaultGameState d) es) e).highestStreak ∧
    (applyEvent (applyEvents (getDefaultGameState d) es) e).achievements.length
        = (applyEvents (getDefaultGameState d) es).achievements.length ∧
    ∀ i (h1 : i < (applyEvents (getDefaultGameState d) es).achievements.length)
      (h2 : i <
        (applyEvent (applyEvents (getDefaultGameState d) es) e).achievements.length),
      ((applyEvents (getDefaultGameState d) es).achievements[i]).current
        ≤ ((applyEvent (applyEvents (getDefaultGameState d) es) e).achievements[i]).current := by
  have hinv := achInv_applyEvents _ (achInv_default d) es
  exact ⟨(step_level_mono _ e).1, (step_level_mono _ e).2,
    applyEvent_achievements_length _ e,
    fun i h1 h2 => step_current_mono _ e hinv i h1 h2⟩

theorem claim_C4_witness :
    ((applyEvents (getDefaultGameState 0) []).achievements.get ⟨0, by decide⟩).current
      ≤ ((applyEvent (applyEvents (getDefaultGameState 0) [])
            (Event.streakUpdated 3 7)).achievements.get ⟨0, by decide⟩).current :=
  (claim_C4 0 [] (Event.streakUpdated 3 7)).2.2.2 0 (by decide) (by decide)

/-- C7 counterexample: a profile that claimed on day 0 (streak 1), evaluated on
day 5, gets streak day 1 from `getCurrentStreakDay`, while the claimed formula
`dailyLoginStreak % 7 + 1` gives 2 — so the formula does not hold for every
profile. -/
theorem claim_C7_counterexample :
    getCurrentStreakDay 5 (claimDailyReward 0 0 (getDefaultGameState 0) 50) = 1 ∧
    (claimDailyReward 0 0 (getDefaultGameState 0) 50).dailyLoginStreak % 7 + 1 = 2 := by
  decide

end MathMon
